import Mathlib

/-!
Shallow embedding of `conan_fgw/src/trainer.py` (class `TrainerHolder`):
a training-configuration manager that resolves a monitor-target metric
string, builds early-stopping and checkpoint policies, selects a training
strategy from the device kind and a distributed flag, and assembles a
training-run object.  External framework objects (Lightning callbacks,
strategies, loggers, torch devices) are modelled as plain records holding
exactly the parameters this module sets; the sklearn / torchmetrics metric
functions are modelled mathematically over exact arithmetic.
-/

namespace ConanFGW

/-- Model of `torch.device`: only the `type` string ("cuda", "cpu", "mps", ...)
is consulted by this module. -/
structure TorchDevice where
  type : String
deriving DecidableEq, Repr

/-- Model of the Python substring test `needle in hay` on strings:
an exact, case-sensitive occurrence of the character sequence of
`needle` inside the character sequence of `hay`. -/
def str_contains (hay needle : String) : Bool :=
  decide (needle.toList <:+: hay.toList)

/-- Model of `os.path.join(a, b)` for two POSIX path components: `b` when
`b` is absolute, otherwise `a` and `b` joined with a separator unless `a`
is empty or already ends in one.  The leading/trailing-separator checks
are phrased on the character sequences. -/
def os_path_join (a b : String) : String :=
  if b.toList.headD 'x' = '/' then b
  else if a = "" then a ++ b
  else if a.toList.getLastD 'x' = '/' then a ++ b
  else a ++ "/" ++ b

/-- Fields of the experiment configuration `Namespace` consumed by
`TrainerHolder`: `config.experiment.model_class.__name__`,
`config.trade_off`, `config.num_epochs`, `config.batch_size`,
`config.early_stopping.min_delta`, `config.early_stopping.patience`. -/
structure EarlyStoppingConf where
  min_delta : ℚ
  patience : ℕ
deriving DecidableEq, Repr

structure Config where
  model_class_name : String
  trade_off : Bool
  num_epochs : ℕ
  batch_size : ℕ
  early_stopping : EarlyStoppingConf
deriving DecidableEq, Repr

/-- `TrainerHolder.regression_metric_name`: the constant "rmse". -/
def regression_metric_name : String := "rmse"

/-- `TrainerHolder.classification_metric_name`: `["auroc", "prc", "mean"]`
when `trade_off`, else `["auroc", "prc"]`. -/
def classification_metric_name (trade_off : Bool) : List String :=
  if trade_off then ["auroc", "prc", "mean"]
  else ["auroc", "prc"]

/-- State of a `TrainerHolder` instance after `__init__`.  The constant
framework objects stored on `self` (`lr_monitor`, `timer`,
`StochasticWeightAveraging`) carry no configuration data from this module
beyond fixed literals and are modelled by the callback constants below. -/
structure TrainerHolder where
  config : Config
  device : TorchDevice
  logs_dir : String
  metric_to_monitor : String
  is_distributed : Bool
  checkpoints_dir : String
  monitor_set : String
deriving DecidableEq, Repr

/-- `TrainerHolder.__init__` (trainer.py lines 29-65): joins the logs dir
with "metrics" and resolves `metric_to_monitor` from the model-class name,
the trade-off flag and the monitored split. -/
def TrainerHolder.mk_init (config : Config) (is_distributed : Bool)
    (device : TorchDevice) (checkpoints_dir logs_dir monitor_set : String) :
    TrainerHolder :=
  ⟨config, device, os_path_join logs_dir "metrics",
   if str_contains config.model_class_name "Classification" then
     if config.trade_off then
       monitor_set ++ "_" ++ (classification_metric_name config.trade_off).getLastD ""
     else
       monitor_set ++ "_" ++ (classification_metric_name config.trade_off).headD ""
   else
     "val_" ++ regression_metric_name,
   is_distributed, checkpoints_dir, monitor_set⟩

/-- Training strategies this module can request from the framework: the
DDP strategy string "ddp_find_unused_parameters_false", or a
`SingleDeviceStrategy(device, accelerator=...)`. -/
inductive Strategy where
  | ddp_find_unused_parameters_false : Strategy
  | single_device (device : TorchDevice) (accelerator : String) : Strategy
deriving DecidableEq, Repr

/-- `TrainerHolder.training_strategy` (trainer.py lines 302-319).  The
Python function has no final else branch: a device type other than
"cuda", "cpu" or "mps" falls through and implicitly returns `None`,
modelled here as `none`. -/
def TrainerHolder.training_strategy (self : TrainerHolder) : Option Strategy :=
  if self.device.type = "cuda" then
    if self.is_distributed then
      some Strategy.ddp_find_unused_parameters_false
    else
      some (Strategy.single_device self.device "cuda")
  else if self.device.type = "cpu" then
    some (Strategy.single_device self.device "cpu")
  else if self.device.type = "mps" then
    some (Strategy.single_device ⟨"cpu"⟩ "cpu")
  else
    none

/-- Parameters this module sets on a Lightning `EarlyStopping` callback. -/
structure EarlyStopping where
  monitor : String
  min_delta : ℚ
  patience : ℕ
  mode : String
  verbose : Bool
  check_finite : Bool
deriving DecidableEq, Repr

/-- `TrainerHolder.early_stopping_callback` (trainer.py lines 202-226). -/
def TrainerHolder.early_stopping_callback (self : TrainerHolder)
    (use_loss : Bool) : EarlyStopping :=
  let m := if use_loss then ("val_loss", "min") else (self.metric_to_monitor, "max")
  ⟨m.1, self.config.early_stopping.min_delta, self.config.early_stopping.patience,
   m.2, true, true⟩

/-- Parameters this module sets on a Lightning `ModelCheckpoint` callback. -/
structure ModelCheckpoint where
  dirpath : String
  filename : String
  verbose : Bool
  monitor : String
  mode : String
  save_last : Bool
deriving DecidableEq, Repr

/-- `TrainerHolder.checkpoint_callback` (trainer.py lines 228-290).  The
Python function returns a `ModelCheckpoint` on the "regression" and
"classification" branches and falls through (implicit `None`) for any
other task string, modelled as `none`.  The filename templates are the
literal Python format strings. -/
def TrainerHolder.checkpoint_callback (self : TrainerHolder)
    (run_name task : String) : Option ModelCheckpoint :=
  let dirpath := os_path_join self.checkpoints_dir run_name
  if task = "regression" then
    some ⟨dirpath, "\x7bepoch\x7d-\x7bstep\x7d-\x7bval_rmse:.2f\x7d",
          true, self.metric_to_monitor, "min", true⟩
  else if task = "classification" then
    if str_contains self.metric_to_monitor "mean" then
      if self.monitor_set = "train" then
        some ⟨dirpath, "\x7bepoch\x7d-\x7bstep\x7d-\x7btrain_mean:.2f\x7d",
              true, self.metric_to_monitor, "max", true⟩
      else
        some ⟨dirpath, "\x7bepoch\x7d-\x7bstep\x7d-\x7bval_mean:.2f\x7d",
              true, self.metric_to_monitor, "max", true⟩
    else
      if self.monitor_set = "train" then
        some ⟨dirpath, "\x7bepoch\x7d-\x7bstep\x7d-\x7btrain_auroc:.2f\x7d",
              true, self.metric_to_monitor, "max", true⟩
      else
        some ⟨dirpath, "\x7bepoch\x7d-\x7bstep\x7d-\x7bval_auroc:.2f\x7d",
              true, self.metric_to_monitor, "max", true⟩
  else
    none

/-- Parameters this module sets on a `CSVLogger`. -/
structure CSVLogger where
  save_dir : String
  name : String
deriving DecidableEq, Repr

/-- `TrainerHolder.create_logger` (trainer.py lines 182-200).  When the
experiment name is falsy (the empty string) the Python code draws a random
15-character lowercase name from the process RNG; that environmental input
is threaded explicitly as `rand_name`. -/
def TrainerHolder.create_logger (self : TrainerHolder)
    (experiment_name rand_name : String) : List CSVLogger :=
  let n := if experiment_name = "" then rand_name else experiment_name
  [⟨self.logs_dir, n⟩]

/-- The callback objects placed in the callback list of the trainer:
early stopping, model checkpoint (possibly `None`), and the constant
`LearningRateMonitor(logging_interval="step")` / `Timer(verbose=True)`
objects created in `__init__`. -/
inductive Callback where
  | early_stopping (es : EarlyStopping) : Callback
  | model_checkpoint (mc : Option ModelCheckpoint) : Callback
  | lr_monitor : Callback
  | timer : Callback
deriving DecidableEq, Repr

/-- Parameters this module passes to the `pl.Trainer` constructor. -/
structure Trainer where
  max_epochs : ℕ
  logger : List CSVLogger
  log_every_n_steps : ℕ
  callbacks : List Callback
  strategy : Option Strategy
  gradient_clip_val : ℚ
  default_root_dir : String
  num_sanity_val_steps : ℤ
deriving DecidableEq, Repr

/-- `TrainerHolder.create_trainer` (trainer.py lines 149-180): infers the
task from the model-class name, builds the callback list, and assembles
the `pl.Trainer`.  The `use_distributed_sampler` parameter is accepted and
never read, exactly as in the source.  `rand_name` threads the RNG input
consumed by `create_logger` when the run name is empty. -/
def TrainerHolder.create_trainer (self : TrainerHolder)
    (run_name rand_name : String) (use_distributed_sampler : Bool) : Trainer :=
  let task :=
    if str_contains self.config.model_class_name "Classification" then
      "classification"
    else
      "regression"
  let callbacks :=
    [Callback.early_stopping (self.early_stopping_callback true),
     Callback.model_checkpoint (self.checkpoint_callback run_name task),
     Callback.lr_monitor,
     Callback.timer]
  ⟨self.config.num_epochs,
   self.create_logger run_name rand_name,
   self.config.batch_size,
   callbacks,
   self.training_strategy,
   1,
   self.checkpoints_dir,
   -1⟩

/-- Mathematical model of `torchmetrics.functional.mean_squared_error`:
mean of squared differences, square-rooted unless `squared`. -/
noncomputable def mean_squared_error (predicted expected : List ℝ)
    (squared : Bool) : ℝ :=
  let mse := (List.zipWith (fun p e => (p - e) ^ 2) predicted expected).sum
               / (expected.length : ℝ)
  if squared then mse else Real.sqrt mse

/-- `TrainerHolder.regression_metric` (trainer.py lines 92-110): delegates
to `mean_squared_error` with the given `squared` flag. -/
noncomputable def regression_metric (predicted expected : List ℝ)
    (squared : Bool) : ℝ :=
  mean_squared_error predicted expected squared

/-- Model of the tensor cast `.long()`: truncation toward zero. -/
def long_trunc (q : ℚ) : ℤ :=
  if 0 ≤ q then ⌊q⌋ else ⌈q⌉

/-- Mathematical model of `sklearn.metrics.roc_auc_score` for binary
labels: the Mann-Whitney statistic, the fraction of (positive, negative)
pairs ranked correctly, ties counted half.  `none` models the exception
sklearn raises when the labels are not binary or only one class occurs. -/
def roc_auc_score (y_true : List ℤ) (y_score : List ℚ) : Option ℚ :=
  if y_true.any (fun t => !(t == 0 || t == 1)) then none
  else
    let pairs := y_true.zip y_score
    let pos := (pairs.filter (fun p => p.1 == 1)).map Prod.snd
    let neg := (pairs.filter (fun p => p.1 == 0)).map Prod.snd
    if pos.length = 0 ∨ neg.length = 0 then none
    else
      some ((pos.map (fun sp => (neg.map (fun sn =>
              if sn < sp then (1 : ℚ) else if sn = sp then 1 / 2 else 0)).sum)).sum
            / ((pos.length : ℚ) * (neg.length : ℚ)))

/-- Mathematical model of `sklearn.metrics.precision_recall_curve` for
binary labels: for each distinct score threshold `t` in increasing order,
precision and recall of the classifier "positive iff score ≥ t", with the
terminal point (precision 1, recall 0) appended.  Returns
(precision, recall, thresholds). -/
def precision_recall_curve (y_true : List ℤ) (probas_pred : List ℚ) :
    List ℚ × List ℚ × List ℚ :=
  let pairs := y_true.zip probas_pred
  let total_pos : ℚ := ((pairs.filter (fun p => p.1 == 1)).length : ℚ)
  let thresholds := List.insertionSort (· ≤ ·) probas_pred.dedup
  let tp := fun t : ℚ =>
    ((pairs.filter (fun p => p.1 == 1 && decide (t ≤ p.2))).length : ℚ)
  let pred_pos := fun t : ℚ =>
    ((pairs.filter (fun p => decide (t ≤ p.2))).length : ℚ)
  let precisions := thresholds.map (fun t => tp t / pred_pos t) ++ [1]
  let recalls := thresholds.map (fun t => tp t / total_pos) ++ [0]
  (precisions, recalls, thresholds)

/-- Trapezoidal sum over a polyline given as (x, y) points. -/
def trapz : List (ℚ × ℚ) → ℚ
  | [] => 0
  | [_] => 0
  | (x1, y1) :: (x2, y2) :: rest =>
      (x2 - x1) * (y1 + y2) / 2 + trapz ((x2, y2) :: rest)

/-- Mathematical model of `sklearn.metrics.auc(x, y)`: trapezoidal area
with the sign fixed by the monotone direction of `x`; `none` models the
exception raised when `x` is not monotone. -/
def sk_auc (x y : List ℚ) : Option ℚ :=
  let dx := List.zipWith (fun a b => b - a) x x.tail
  if dx.all (fun d => decide (d ≤ 0)) then some (-trapz (x.zip y))
  else if dx.all (fun d => decide (0 ≤ d)) then some (trapz (x.zip y))
  else none

/-- `TrainerHolder.classification_metric` (trainer.py lines 112-146):
casts the expected labels with `.long()`, computes the AUROC and the area
under the precision-recall curve, and returns `[auroc, prc]`, extended
with their arithmetic mean when `trade_off`.  `none` models a metric
exception propagating. -/
def classification_metric (predicted expected : List ℚ) (trade_off : Bool) :
    Option (List ℚ) :=
  let exp_long := expected.map long_trunc
  let pr := precision_recall_curve exp_long predicted
  match roc_auc_score exp_long predicted, sk_auc pr.2.1 pr.1 with
  | some auc_score, some prc_score =>
      if trade_off then
        some [auc_score, prc_score, (auc_score + prc_score) / 2]
      else
        some [auc_score, prc_score]
  | _, _ => none

/-! Concrete sample configurations and holders used to instantiate the
theorems below on closed inputs. -/

def cfg_reg : Config := ⟨"MolPropModel", false, 10, 32, ⟨1 / 100, 7⟩⟩

def cfg_cls : Config := ⟨"GraphClassificationModel", false, 10, 32, ⟨1 / 100, 7⟩⟩

def cfg_cls_to : Config := ⟨"GraphClassificationModel", true, 10, 32, ⟨1 / 100, 7⟩⟩

def holder_reg : TrainerHolder :=
  TrainerHolder.mk_init cfg_reg false ⟨"cpu"⟩ "ckpt" "logs" "val"

def holder_cls_train : TrainerHolder :=
  TrainerHolder.mk_init cfg_cls false ⟨"cuda"⟩ "ckpt" "logs" "train"

/-- C5: `classification_metric_name` returns a list of length 3 iff
`trade_off` (else 2), whose last element is "mean" exactly when
`trade_off`; concretely `["auroc", "prc", "mean"]` when `trade_off` and
`["auroc", "prc"]` otherwise. -/
theorem classification_metric_name_spec :
    ∀ trade_off : Bool,
      (classification_metric_name trade_off).length = (if trade_off then 3 else 2)
      ∧ ((classification_metric_name trade_off).getLastD "" = "mean" ↔ trade_off = true)
      ∧ classification_metric_name true = ["auroc", "prc", "mean"]
      ∧ classification_metric_name false = ["auroc", "prc"] := by
  intro t
  cases t <;> simp [classification_metric_name]

/-- C2: at construction the monitor target is `"{split}_mean"` for a
classification model with trade_off on, `"{split}_auroc"` for a
classification model with trade_off off, and the constant `"val_rmse"`
for a regression model, the split parameter being ignored. -/
theorem metric_to_monitor_resolution :
    ∀ (cfg : Config) (isd : Bool) (dev : TorchDevice) (cd ld ms : String),
      (str_contains cfg.model_class_name "Classification" = true → cfg.trade_off = true →
        (TrainerHolder.mk_init cfg isd dev cd ld ms).metric_to_monitor = ms ++ "_mean")
      ∧ (str_contains cfg.model_class_name "Classification" = true → cfg.trade_off = false →
        (TrainerHolder.mk_init cfg isd dev cd ld ms).metric_to_monitor = ms ++ "_auroc")
      ∧ (str_contains cfg.model_class_name "Classification" = false →
        (TrainerHolder.mk_init cfg isd dev cd ld ms).metric_to_monitor = "val_rmse") := by
  intro cfg isd dev cd ld ms
  refine ⟨?_, ?_, ?_⟩
  · intro hc ht
    simp [TrainerHolder.mk_init, hc, ht, classification_metric_name]
    rw [String.append_assoc]; rfl
  · intro hc ht
    simp [TrainerHolder.mk_init, hc, ht, classification_metric_name]
    rw [String.append_assoc]; rfl
  · intro hc
    simp [TrainerHolder.mk_init, hc, regression_metric_name]

/-- Witness for C2: a classification model with trade_off on and split
"val" monitors "val_mean", with trade_off off "val_auroc", and a
regression model monitors "val_rmse". -/
theorem metric_to_monitor_resolution_witness :
    (TrainerHolder.mk_init cfg_cls_to false ⟨"cuda"⟩ "ckpt" "logs" "val").metric_to_monitor
        = "val" ++ "_mean"
    ∧ (TrainerHolder.mk_init cfg_cls false ⟨"cuda"⟩ "ckpt" "logs" "val").metric_to_monitor
        = "val" ++ "_auroc"
    ∧ (TrainerHolder.mk_init cfg_reg false ⟨"cuda"⟩ "ckpt" "logs" "val").metric_to_monitor
        = "val_rmse" :=
  ⟨(metric_to_monitor_resolution cfg_cls_to false ⟨"cuda"⟩ "ckpt" "logs" "val").1
      (by decide) rfl,
   (metric_to_monitor_resolution cfg_cls false ⟨"cuda"⟩ "ckpt" "logs" "val").2.1
      (by decide) rfl,
   (metric_to_monitor_resolution cfg_reg false ⟨"cuda"⟩ "ckpt" "logs" "val").2.2
      (by decide)⟩

/-- C1 counterexample: for a device whose type is neither "cuda", "cpu"
nor "mps" (here "xla"), `training_strategy` falls off the end of the
function and yields no strategy at all, not a single-device strategy on
CPU as the claim states for "any other accelerator kind". -/
theorem training_strategy_unhandled_device_counterexample :
    (TrainerHolder.mk_init cfg_reg true ⟨"xla"⟩ "ckpt" "logs" "val").training_strategy = none
    ∧ (TrainerHolder.mk_init cfg_reg true ⟨"xla"⟩ "ckpt" "logs" "val").training_strategy ≠
        some (Strategy.single_device ⟨"cpu"⟩ "cpu") := by
  refine ⟨by decide, by decide⟩

/-- C1 (amended): the decision table of `training_strategy` — cuda and
distributed gives the DDP strategy with unused-parameter detection
disabled, cuda non-distributed gives single-device on that GPU, cpu gives
single-device on CPU, mps gives single-device on CPU regardless of the
distributed flag, and every other device kind yields no strategy. -/
theorem training_strategy_decision_table :
    ∀ self : TrainerHolder,
      (self.device.type = "cuda" → self.is_distributed = true →
        self.training_strategy = some Strategy.ddp_find_unused_parameters_false)
      ∧ (self.device.type = "cuda" → self.is_distributed = false →
        self.training_strategy = some (Strategy.single_device self.device "cuda"))
      ∧ (self.device.type = "cpu" →
        self.training_strategy = some (Strategy.single_device self.device "cpu"))
      ∧ (self.device.type = "mps" →
        self.training_strategy = some (Strategy.single_device ⟨"cpu"⟩ "cpu"))
      ∧ (self.device.type ≠ "cuda" → self.device.type ≠ "cpu" → self.device.type ≠ "mps" →
        self.training_strategy = none) := by
  intro self
  refine ⟨?_, ?_, ?_, ?_, ?_⟩ <;>
    intros <;>
    simp [TrainerHolder.training_strategy, *]

/-- Witness for the C1 decision table at one concrete holder per row. -/
theorem training_strategy_decision_table_witness :
    (TrainerHolder.mk_init cfg_reg true ⟨"cuda"⟩ "ckpt" "logs" "val").training_strategy
        = some Strategy.ddp_find_unused_parameters_false
    ∧ (TrainerHolder.mk_init cfg_reg false ⟨"cuda"⟩ "ckpt" "logs" "val").training_strategy
        = some (Strategy.single_device
            (TrainerHolder.mk_init cfg_reg false ⟨"cuda"⟩ "ckpt" "logs" "val").device "cuda")
    ∧ holder_reg.training_strategy
        = some (Strategy.single_device holder_reg.device "cpu")
    ∧ (TrainerHolder.mk_init cfg_reg true ⟨"mps"⟩ "ckpt" "logs" "val").training_strategy
        = some (Strategy.single_device ⟨"cpu"⟩ "cpu")
    ∧ (TrainerHolder.mk_init cfg_reg false ⟨"vulkan"⟩ "ckpt" "logs" "val").training_strategy
        = none :=
  ⟨(training_strategy_decision_table _).1 rfl rfl,
   (training_strategy_decision_table _).2.1 rfl rfl,
   (training_strategy_decision_table holder_reg).2.2.1 rfl,
   (training_strategy_decision_table _).2.2.2.1 rfl,
   (training_strategy_decision_table _).2.2.2.2 (by decide) (by decide) (by decide)⟩

/-- C10: task-kind inference is the exact case-sensitive substring test
for "Classification" — `str_contains` agrees with character-sequence
occurrence, a lowercase "classification" does not match, and both the
monitor-target resolution in the constructor and the checkpoint task in
`create_trainer` branch on exactly this test. -/
theorem task_inference_substring :
    ∀ (name : String) (self : TrainerHolder) (rn rand : String) (b : Bool)
      (cfg : Config) (isd : Bool) (dev : TorchDevice) (cd ld ms : String),
      (str_contains name "Classification" = true ↔
        "Classification".toList <:+: name.toList)
      ∧ str_contains "softmax_classification_net" "Classification" = false
      ∧ (str_contains cfg.model_class_name "Classification" = false →
          (TrainerHolder.mk_init cfg isd dev cd ld ms).metric_to_monitor =
            "val_" ++ regression_metric_name)
      ∧ (str_contains cfg.model_class_name "Classification" = true →
          (TrainerHolder.mk_init cfg isd dev cd ld ms).metric_to_monitor =
            ms ++ "_" ++ (if cfg.trade_off then "mean" else "auroc"))
      ∧ (str_contains self.config.model_class_name "Classification" = true →
          (self.create_trainer rn rand b).callbacks.getD 1 Callback.timer =
            Callback.model_checkpoint (self.checkpoint_callback rn "classification"))
      ∧ (str_contains self.config.model_class_name "Classification" = false →
          (self.create_trainer rn rand b).callbacks.getD 1 Callback.timer =
            Callback.model_checkpoint (self.checkpoint_callback rn "regression")) := by
  intro name self rn rand b cfg isd dev cd ld ms
  refine ⟨by simp [str_contains], by decide, ?_, ?_, ?_, ?_⟩
  · intro hc
    simp [TrainerHolder.mk_init, hc]
  · intro hc
    cases ht : cfg.trade_off <;>
      simp [TrainerHolder.mk_init, hc, ht, classification_metric_name]
  · intro hc
    simp [TrainerHolder.create_trainer, hc]
  · intro hc
    simp [TrainerHolder.create_trainer, hc]

/-- Witness for C10 at concrete class names on both sides of the test. -/
theorem task_inference_substring_witness :
    (holder_cls_train.create_trainer "run1" "r" true).callbacks.getD 1 Callback.timer =
      Callback.model_checkpoint (holder_cls_train.checkpoint_callback "run1" "classification")
    ∧ (holder_reg.create_trainer "run1" "r" true).callbacks.getD 1 Callback.timer =
      Callback.model_checkpoint (holder_reg.checkpoint_callback "run1" "regression")
    ∧ (TrainerHolder.mk_init cfg_reg false ⟨"cpu"⟩ "ckpt" "logs" "val").metric_to_monitor =
      "val_" ++ regression_metric_name :=
  ⟨(task_inference_substring "x" holder_cls_train "run1" "r" true cfg_reg false ⟨"cpu"⟩
      "ckpt" "logs" "val").2.2.2.2.1 (by decide),
   (task_inference_substring "x" holder_reg "run1" "r" true cfg_reg false ⟨"cpu"⟩
      "ckpt" "logs" "val").2.2.2.2.2 (by decide),
   (task_inference_substring "x" holder_reg "run1" "r" true cfg_reg false ⟨"cpu"⟩
      "ckpt" "logs" "val").2.2.1 (by decide)⟩

/-- C8: the early-stopping policy monitors "val_loss" in minimize mode
when `use_loss`, else the resolved monitor target in maximize mode; its
min-delta and patience come from the configuration and check-finite is
always enabled. -/
theorem early_stopping_callback_spec :
    ∀ (self : TrainerHolder) (use_loss : Bool),
      (self.early_stopping_callback true).monitor = "val_loss"
      ∧ (self.early_stopping_callback true).mode = "min"
      ∧ (self.early_stopping_callback false).monitor = self.metric_to_monitor
      ∧ (self.early_stopping_callback false).mode = "max"
      ∧ (self.early_stopping_callback use_loss).min_delta =
          self.config.early_stopping.min_delta
      ∧ (self.early_stopping_callback use_loss).patience =
          self.config.early_stopping.patience
      ∧ (self.early_stopping_callback use_loss).check_finite = true := by
  intro self ul
  cases ul <;> simp [TrainerHolder.early_stopping_callback]

/-- C9: `use_distributed_sampler` is a dead parameter — the trainer
assembled by `create_trainer` is identical for both values of the flag. -/
theorem create_trainer_sampler_dead_parameter :
    ∀ (self : TrainerHolder) (rn rand : String),
      self.create_trainer rn rand true = self.create_trainer rn rand false := by
  intro self rn rand
  rfl

/-- C4: every checkpoint policy produced by `checkpoint_callback`, in
every branch, has save-last enabled and its output directory equal to the
checkpoints directory joined with the run name. -/
theorem checkpoint_callback_invariants :
    ∀ (self : TrainerHolder) (rn task : String) (cp : ModelCheckpoint),
      self.checkpoint_callback rn task = some cp →
      cp.save_last = true ∧ cp.dirpath = os_path_join self.checkpoints_dir rn := by
  intro self rn task cp h
  simp only [TrainerHolder.checkpoint_callback] at h
  split_ifs at h <;>
    first
      | exact Option.noConfusion h
      | (injection h with h; exact h ▸ ⟨rfl, rfl⟩)

/-- Witness for C4 on the regression branch of a concrete holder. -/
theorem checkpoint_callback_invariants_witness :
    (⟨"ckpt/run1", "\x7bepoch\x7d-\x7bstep\x7d-\x7bval_rmse:.2f\x7d",
      true, "val_rmse", "min", true⟩ : ModelCheckpoint).save_last = true
    ∧ (⟨"ckpt/run1", "\x7bepoch\x7d-\x7bstep\x7d-\x7bval_rmse:.2f\x7d",
        true, "val_rmse", "min", true⟩ : ModelCheckpoint).dirpath =
          os_path_join holder_reg.checkpoints_dir "run1" :=
  checkpoint_callback_invariants holder_reg "run1" "regression"
    ⟨"ckpt/run1", "\x7bepoch\x7d-\x7bstep\x7d-\x7bval_rmse:.2f\x7d",
     true, "val_rmse", "min", true⟩ (by decide)

/-- C3: the checkpoint policy has one regression template (minimize mode,
filename embedding val_rmse to two decimals) and four classification
templates (maximize mode, filename embedding train_mean, val_mean,
train_auroc or val_auroc according to whether the monitor target contains
"mean" and whether the monitored split is "train"); in particular the
holder built from a classification config with trade_off off and
monitor_set "train" yields a maximize-mode policy whose template
references "train_auroc". -/
theorem checkpoint_callback_templates :
    ∀ (self : TrainerHolder) (rn : String),
      self.checkpoint_callback rn "regression" =
        some ⟨os_path_join self.checkpoints_dir rn,
              "\x7bepoch\x7d-\x7bstep\x7d-\x7bval_rmse:.2f\x7d",
              true, self.metric_to_monitor, "min", true⟩
      ∧ (∀ cp, self.checkpoint_callback rn "classification" = some cp →
          cp.mode = "max"
          ∧ cp.filename =
              (if str_contains self.metric_to_monitor "mean" then
                 if self.monitor_set = "train" then
                   "\x7bepoch\x7d-\x7bstep\x7d-\x7btrain_mean:.2f\x7d"
                 else
                   "\x7bepoch\x7d-\x7bstep\x7d-\x7bval_mean:.2f\x7d"
               else
                 if self.monitor_set = "train" then
                   "\x7bepoch\x7d-\x7bstep\x7d-\x7btrain_auroc:.2f\x7d"
                 else
                   "\x7bepoch\x7d-\x7bstep\x7d-\x7bval_auroc:.2f\x7d"))
      ∧ holder_cls_train.checkpoint_callback "run1" "classification" =
          some ⟨os_path_join holder_cls_train.checkpoints_dir "run1",
                "\x7bepoch\x7d-\x7bstep\x7d-\x7btrain_auroc:.2f\x7d",
                true, holder_cls_train.metric_to_monitor, "max", true⟩
      ∧ str_contains "\x7bepoch\x7d-\x7bstep\x7d-\x7btrain_auroc:.2f\x7d"
          "train_auroc" = true := by
  intro self rn
  refine ⟨by simp [TrainerHolder.checkpoint_callback], ?_, by decide, by decide⟩
  intro cp h
  simp [TrainerHolder.checkpoint_callback] at h
  split_ifs at h with h1 h2 h3 <;>
    (injection h with h; subst h; simp [*])

/-- Witness for C3: the regression template at a concrete holder and the
classification branch hypothesis discharged at a concrete policy. -/
theorem checkpoint_callback_templates_witness :
    holder_reg.checkpoint_callback "run1" "regression" =
      some ⟨os_path_join holder_reg.checkpoints_dir "run1",
            "\x7bepoch\x7d-\x7bstep\x7d-\x7bval_rmse:.2f\x7d",
            true, holder_reg.metric_to_monitor, "min", true⟩
    ∧ (⟨"ckpt/run1", "\x7bepoch\x7d-\x7bstep\x7d-\x7btrain_auroc:.2f\x7d",
        true, "train_auroc", "max", true⟩ : ModelCheckpoint).mode = "max"
    ∧ (⟨"ckpt/run1", "\x7bepoch\x7d-\x7bstep\x7d-\x7btrain_auroc:.2f\x7d",
        true, "train_auroc", "max", true⟩ : ModelCheckpoint).filename =
          (if str_contains holder_cls_train.metric_to_monitor "mean" then
             if holder_cls_train.monitor_set = "train" then
               "\x7bepoch\x7d-\x7bstep\x7d-\x7btrain_mean:.2f\x7d"
             else
               "\x7bepoch\x7d-\x7bstep\x7d-\x7bval_mean:.2f\x7d"
           else
             if holder_cls_train.monitor_set = "train" then
               "\x7bepoch\x7d-\x7bstep\x7d-\x7btrain_auroc:.2f\x7d"
             else
               "\x7bepoch\x7d-\x7bstep\x7d-\x7bval_auroc:.2f\x7d") :=
  ⟨(checkpoint_callback_templates holder_reg "run1").1,
   ((checkpoint_callback_templates holder_cls_train "run1").2.1
      ⟨"ckpt/run1", "\x7bepoch\x7d-\x7bstep\x7d-\x7btrain_auroc:.2f\x7d",
       true, "train_auroc", "max", true⟩ (by decide)).1,
   ((checkpoint_callback_templates holder_cls_train "run1").2.1
      ⟨"ckpt/run1", "\x7bepoch\x7d-\x7bstep\x7d-\x7btrain_auroc:.2f\x7d",
       true, "train_auroc", "max", true⟩ (by decide)).2⟩

/-- C6: for matching-shape inputs, `regression_metric` with
`squared = false` is the square root of `regression_metric` with
`squared = true` — RMSE versus raw MSE. -/
theorem regression_metric_sqrt_relation :
    ∀ (predicted expected : List ℝ),
      predicted.length = expected.length →
      regression_metric predicted expected false =
        Real.sqrt (regression_metric predicted expected true) := by
  intro p e h
  simp [regression_metric, mean_squared_error]

/-- Witness for C6 at a concrete input pair. -/
theorem regression_metric_sqrt_relation_witness :
    ([(1 : ℝ), 2].length = [(0 : ℝ), 0].length)
    ∧ regression_metric [1, 2] [0, 0] false =
        Real.sqrt (regression_metric [1, 2] [0, 0] true) :=
  ⟨rfl, regression_metric_sqrt_relation [1, 2] [0, 0] rfl⟩

/-- C7: whenever `classification_metric` returns a value, with trade_off
on it is a three-element list whose third entry is the arithmetic mean of
the first two (AUROC and precision-recall AUC), and with trade_off off it
is exactly the corresponding two-element list. -/
theorem classification_metric_trade_off_mean :
    ∀ (predicted expected : List ℚ),
      (∀ L, classification_metric predicted expected true = some L →
        L.length = 3 ∧ L.getD 2 0 = (L.getD 0 0 + L.getD 1 0) / 2)
      ∧ (∀ L, classification_metric predicted expected false = some L →
        L.length = 2 ∧
        classification_metric predicted expected true =
          some (L ++ [(L.getD 0 0 + L.getD 1 0) / 2])) := by
  intro pred exp
  constructor <;> intro L h <;>
    rcases hA : roc_auc_score (exp.map long_trunc) pred with _ | a <;>
    rcases hP : sk_auc (precision_recall_curve (exp.map long_trunc) pred).2.1
        (precision_recall_curve (exp.map long_trunc) pred).1 with _ | p <;>
    simp [classification_metric, hA, hP] at h <;>
    subst h <;>
    simp [classification_metric, hA, hP]

/-- Witness for C7 at a concrete perfectly separated input. -/
theorem classification_metric_trade_off_mean_witness :
    ([(1 : ℚ), 1, 1].length = 3
      ∧ [(1 : ℚ), 1, 1].getD 2 0 =
          ([(1 : ℚ), 1, 1].getD 0 0 + [(1 : ℚ), 1, 1].getD 1 0) / 2)
    ∧ ([(1 : ℚ), 1].length = 2
      ∧ classification_metric [9 / 10, 1 / 10] [1, 0] true =
          some ([(1 : ℚ), 1] ++
            [([(1 : ℚ), 1].getD 0 0 + [(1 : ℚ), 1].getD 1 0) / 2])) :=
  ⟨(classification_metric_trade_off_mean [9 / 10, 1 / 10] [1, 0]).1
      [1, 1, 1]
      (by norm_num [classification_metric, roc_auc_score, precision_recall_curve,
            sk_auc, trapz, long_trunc, List.insertionSort, List.orderedInsert,
            List.dedup, List.pwFilter]),
   (classification_metric_trade_off_mean [9 / 10, 1 / 10] [1, 0]).2
      [1, 1]
      (by norm_num [classification_metric, roc_auc_score, precision_recall_curve,
            sk_auc, trapz, long_trunc, List.insertionSort, List.orderedInsert,
            List.dedup, List.pwFilter])⟩

end ConanFGW
